import Mathlib

/-!
Verification development for the retrieval-augmented decision core of the
ATS resume optimizer: a vector store with threshold-filtered
nearest-neighbor search (`embedding_store.py`) and a per-candidate
alignment classifier with score aggregation (`alignment_engine.py`).

Floating-point scalars are idealized as rationals; the external
sentence-transformer encoder is an explicit function parameter
`enc : String → Vec`; the FAISS L2-normalization routine (external
library code) is likewise passed as a parameter where it matters, with
only its shape-preservation assumed.  The file system is modelled as an
optional artifact value.
-/

namespace ATS

/-- Vectors: finite sequences of rational scalars. -/
abbrev Vec := List ℚ

/-- Inner product of two vectors (`np.dot` on equal-length arrays). -/
def dot (u v : Vec) : ℚ := (List.zipWith (fun a b => a * b) u v).sum

/-- Metadata record attached to each stored vector: the source text and
an insertion position, the shape the stores' default metadata generator
produces (`{"text": text, "index": i}`); the index never interprets it. -/
structure Meta where
  text : String
  pos : Nat
deriving DecidableEq

/-- A FAISS flat inner-product index (`faiss.IndexFlatIP`): its
dimension and the stored vectors in insertion order. -/
structure FaissIndex where
  d : Nat
  vectors : List Vec
deriving DecidableEq

/-- The mutable state of `EmbeddingStore`: model name, configured
dimension, the optional FAISS index, and the metadata list. -/
structure EmbeddingStore where
  model_name : String
  dimension : Nat
  index : Option FaissIndex
  metadata : List Meta
deriving DecidableEq

/-- The errors of the persistence and indexing layer
(`ValueError("No index to save")`, `FileNotFoundError`, the spec's
`FormatMismatch`, and the FAISS dimension assertion). -/
inductive StoreError where
  | NoIndexToSave
  | StoreNotFound
  | FormatMismatch
  | DimensionMismatch
deriving DecidableEq

/-- The stored vectors of a store: empty when no index was ever built. -/
def entries (st : EmbeddingStore) : List Vec :=
  match st.index with
  | none => []
  | some idx => idx.vectors

/-- The dimension `index.add` is checked against: the built index's own
dimension when an index exists, else the configured store dimension
(which a fresh index is created with). -/
def index_dim (st : EmbeddingStore) : Nat :=
  match st.index with
  | none => st.dimension
  | some idx => idx.d

/-- Default metadata generated for a batch of texts starting at a given
position (`{"text": text, "index": start + i}`). -/
def default_metadata (start : Nat) (texts : List String) : List Meta :=
  texts.enum.map (fun p => ⟨p.2, start + p.1⟩)

/-- `EmbeddingStore.build_index`: normalizes the batch, replaces the
index by a fresh empty one, adds the batch (the FAISS `add` rejects rows
whose length differs from the index dimension), then installs the
metadata.  The normalizer is the external `faiss.normalize_L2`.  On the
dimension failure the fresh empty index has already been installed and
the metadata assignment is never reached, mirroring the statement order
of the source. -/
def build_index (norm : Vec → Vec) (st : EmbeddingStore) (embeddings : List Vec)
    (texts : List String) (metadata : Option (List Meta)) :
    Option StoreError × EmbeddingStore :=
  let meta := metadata.getD (default_metadata 0 texts)
  let embs := embeddings.map norm
  if embs.all (fun v => v.length == st.dimension) then
    (none, { st with index := some ⟨st.dimension, embs⟩, metadata := meta })
  else
    (some .DimensionMismatch, { st with index := some ⟨st.dimension, []⟩ })

/-- `EmbeddingStore.add_to_index`: builds a fresh index when none
exists; otherwise normalizes and appends the batch to the existing index
(the FAISS `add` rejects rows whose length differs from the index's
dimension) and extends the metadata.  On the dimension failure nothing
has been mutated yet. -/
def add_to_index (norm : Vec → Vec) (st : EmbeddingStore) (embeddings : List Vec)
    (texts : List String) (metadata : Option (List Meta)) :
    Option StoreError × EmbeddingStore :=
  match st.index with
  | none => build_index norm st embeddings texts metadata
  | some idx =>
    let meta := metadata.getD (default_metadata st.metadata.length texts)
    let embs := embeddings.map norm
    if embs.all (fun v => v.length == idx.d) then
      (none, { st with index := some ⟨idx.d, idx.vectors ++ embs⟩,
                       metadata := st.metadata ++ meta })
    else
      (some .DimensionMismatch, st)

/-- Result ranking of the flat index search: strictly higher score
first, exact score ties broken by lower insertion position (the
determinism contract of the nearest-neighbor search; the top-k selection
itself is performed by the external FAISS library). -/
def rank_rel (a b : ℚ × Nat) : Prop := b.1 < a.1 ∨ (a.1 = b.1 ∧ a.2 ≤ b.2)

instance rank_rel_dec : DecidableRel rank_rel :=
  fun a b => inferInstanceAs (Decidable (b.1 < a.1 ∨ (a.1 = b.1 ∧ a.2 ≤ b.2)))

/-- `EmbeddingStore.search` on an already-encoded, normalized query
vector (text encoding is the external embedding provider): empty when no
index exists or it is empty, otherwise the query is scored against every
stored vector by inner product, `k` is clamped to the entry count, and
the top results are paired with their metadata when the FAISS row index
is within the metadata list's bounds (the source's `idx < len` guard). -/
def search (st : EmbeddingStore) (qv : Vec) (k : Nat) : List (ℚ × Meta) :=
  match st.index with
  | none => []
  | some idx =>
    if idx.vectors.length = 0 then []
    else
      let search_k := min k idx.vectors.length
      if search_k = 0 then []
      else
        let scored := idx.vectors.enum.map (fun p => (dot qv p.2, p.1))
        let ranked := List.insertionSort rank_rel scored
        (ranked.take search_k).filterMap
          (fun p => (st.metadata.get? p.2).map (fun m => (p.1, m)))

/-- `EmbeddingStore.get_relevant_entries`: runs `search` with `top_k` as
the candidate pool, keeping the metadata of exactly the pool entries
whose score is at least the threshold, in pool order. -/
def get_relevant_entries (st : EmbeddingStore) (qv : Vec) (threshold : ℚ)
    (top_k : Nat) : List Meta :=
  (search st qv top_k).filterMap
    (fun p => if threshold ≤ p.1 then some p.2 else none)

/-- The persisted artifact triple keyed by one path stem: the serialized
FAISS index, the pickled metadata list, and the JSON config record. -/
structure Artifact where
  faiss_index : FaissIndex
  metadata : List Meta
  model_name : String
  config_dimension : Nat
  config_size : Nat
deriving DecidableEq

/-- `EmbeddingStore.save`: fails when no index exists, otherwise writes
the index, the metadata, and the config `{model_name, dimension, size}`. -/
def save (st : EmbeddingStore) : Except StoreError Artifact :=
  match st.index with
  | none => .error .NoIndexToSave
  | some idx => .ok ⟨idx, st.metadata, st.model_name, st.dimension, idx.vectors.length⟩

/-- `EmbeddingStore.load`: takes the artifact found at the path (`none`
when the store file does not exist, in which case `FileNotFoundError` is
raised) and installs the stored index, metadata, model name and
dimension.  The source performs no dimension or entry-count validation. -/
def load (stored : Option Artifact) (st : EmbeddingStore) :
    Except StoreError EmbeddingStore :=
  match stored with
  | none => .error .StoreNotFound
  | some a =>
      .ok { st with index := some a.faiss_index, metadata := a.metadata,
                    model_name := a.model_name, dimension := a.config_dimension }

/-- The decision labels.  `ADD` exists in the system as a signal for
out-of-core handling; the classifier's decision function below never
returns it. -/
inductive Decision where
  | KEEP
  | REWRITE
  | ADD
  | DE_EMPHASIZE
deriving DecidableEq

/-- One entry of `match_analysis["recommendations"]`: a topic string and
an action tag (`"EMPHASIZE"`, `"ADD"`, `"REWRITE"`, ...). -/
structure Recommendation where
  skill_or_topic : String
  action : String
deriving DecidableEq

/-- The external match-analysis hints: the matched-skill names in their
given scanning order, and the recommendation list. -/
structure MatchAnalysis where
  skill_matches : List String
  recommendations : List Recommendation
deriving DecidableEq

/-- The state of `AlignmentEngine`: its store, the three thresholds,
and the optional job-description embedding and keyword text. -/
structure AlignmentEngine where
  store : EmbeddingStore
  similarity_threshold : ℚ
  rewrite_threshold : ℚ
  keep_threshold : ℚ
  jd_embedding : Option Vec
  jd_keywords : String

/-- An engine with the constructor's default thresholds
(`similarity 0.6, rewrite 0.4, keep 0.75`) and no job description set. -/
def default_engine (store : EmbeddingStore) : AlignmentEngine :=
  ⟨store, 0.6, 0.4, 0.75, none, ""⟩

/-- Python's `str.lower()`, as a character-wise map (ASCII case
folding). -/
def str_lower (s : String) : String := String.mk (s.data.map Char.toLower)

/-- `a` starts with `b`?  Helper for the substring test. -/
def starts_with : List Char → List Char → Bool
  | [], _ => true
  | _ :: _, [] => false
  | a :: ta, b :: tb => a == b && starts_with ta tb

/-- Is the first list a contiguous sublist of the second?  Note the
empty list is a sublist of everything, as with Python's `"" in s`. -/
def substr_in (needle : List Char) : List Char → Bool
  | [] => starts_with needle []
  | h :: t => starts_with needle (h :: t) || substr_in needle t

/-- Python's `needle in hay` on strings: contiguous-substring test. -/
def py_contains (needle hay : String) : Bool := substr_in needle.data hay.data

/-- `AlignmentEngine._calculate_jd_similarity` on an already-encoded,
normalized bullet embedding: 0 when no job description is set, else the
inner product with the stored JD embedding clamped to `[0, 1]`. -/
def calculate_jd_similarity (eng : AlignmentEngine) (enc : String → Vec)
    (bullet_text : String) : ℚ :=
  match eng.jd_embedding with
  | none => 0
  | some jd => max 0 (min 1 (dot jd (enc bullet_text)))

/-- Whitespace splitting in Python's `str.split()` style: maximal
non-whitespace runs, no empty words.  `acc` holds the current word's
characters in reverse. -/
def split_words (acc : List Char) : List Char → List String
  | [] => if acc = [] then [] else [String.mk acc.reverse]
  | c :: cs =>
      if c.isWhitespace then
        if acc = [] then split_words [] cs
        else String.mk acc.reverse :: split_words [] cs
      else split_words (c :: acc) cs

/-- The lower-cased whitespace-split word set of a string, as a
duplicate-free list (Python's `set(s.lower().split())`). -/
def word_set (s : String) : List String :=
  (split_words [] (str_lower s).data).dedup

/-- `AlignmentEngine._calculate_keyword_overlap`: 0 when the JD keyword
text is empty or has no words, else the intersection size of the two
word sets over the JD word-set size, capped at 1. -/
def calculate_keyword_overlap (eng : AlignmentEngine) (bullet_text : String) : ℚ :=
  if eng.jd_keywords = "" then 0
  else
    let jd_words := word_set eng.jd_keywords
    if jd_words = [] then 0
    else
      let bullet_words := word_set bullet_text
      let overlap := (bullet_words.filter (fun w => jd_words.contains w)).length
      min 1 ((overlap : ℚ) / (jd_words.length : ℚ))

/-- The matched-skill scan of `analyze_bullet` step 5: the first skill
whose lower-cased name is a substring of the lower-cased bullet text
sets profile alignment 0.8 and should-emphasize, and the scan stops. -/
def scan_skills : List String → String → ℚ × Bool
  | [], _ => (0, false)
  | s :: rest, text_l =>
      if py_contains (str_lower s) text_l then ((0.8 : ℚ), true)
      else scan_skills rest text_l

/-- The recommendation scan of `analyze_bullet` step 5, threading the
`(profile_alignment, should_emphasize, should_add)` accumulator: every
recommendation with a non-empty lower-cased topic occurring in the
lower-cased bullet text raises the alignment to at least 0.7 and sets
should-emphasize when its action is `EMPHASIZE`, or sets should-add when
its action is `ADD`.  This scan is unconditional: it runs whether or not
a skill matched. -/
def scan_recommendations : List Recommendation → String → ℚ × Bool × Bool → ℚ × Bool × Bool
  | [], _, acc => acc
  | r :: rest, text_l, (p, e, a) =>
      let topic := str_lower r.skill_or_topic
      if (topic != "") && py_contains topic text_l then
        if r.action = "EMPHASIZE" then
          scan_recommendations rest text_l (max p 0.7, true, a)
        else if r.action = "ADD" then
          scan_recommendations rest text_l (p, e, true)
        else
          scan_recommendations rest text_l (p, e, a)
      else
        scan_recommendations rest text_l (p, e, a)

/-- Step 5 of `analyze_bullet`: the hint-derived signal triple
`(profile_alignment, should_emphasize, should_add)`, all defaulted when
no match analysis is supplied. -/
def hint_signals (ma : Option MatchAnalysis) (bullet_text : String) : ℚ × Bool × Bool :=
  match ma with
  | none => (0, false, false)
  | some m =>
      let text_l := str_lower bullet_text
      let pe := scan_skills m.skill_matches text_l
      scan_recommendations m.recommendations text_l (pe.1, pe.2, false)

/-- The combined score of `AlignmentEngine._make_decision`, with the
source's literal coefficients and operand order. -/
def combined_score (jd_similarity keyword_score profile_alignment : ℚ)
    (has_evidence : Bool) : ℚ :=
  jd_similarity * 0.4 + keyword_score * 0.25 +
    (if has_evidence then (0.8 : ℚ) else 0.2) * 0.2 + profile_alignment * 0.15

/-- `AlignmentEngine._make_decision`.  The source's `should_add and not
has_evidence` branch is a `pass` and is omitted; `should_add` is
received and ignored. -/
def make_decision (eng : AlignmentEngine) (jd_similarity : ℚ) (has_evidence : Bool)
    (keyword_score profile_alignment : ℚ)
    (should_emphasize should_add : Bool) : Decision :=
  let combined := combined_score jd_similarity keyword_score profile_alignment has_evidence
  if should_emphasize && has_evidence then
    if jd_similarity ≥ eng.keep_threshold * 0.9 then .KEEP else .REWRITE
  else if combined ≥ eng.keep_threshold ∧ jd_similarity ≥ eng.keep_threshold then .KEEP
  else if combined ≥ eng.rewrite_threshold then .REWRITE
  else .DE_EMPHASIZE

/-- The analysis record `analyze_bullet` returns (the reasoning string
is presentation-only and omitted; `should_add` is a local of the source
that is not part of the returned record). -/
structure BulletAnalysis where
  bullet : String
  jd_similarity : ℚ
  has_evidence : Bool
  relevant_entries : List Meta
  keyword_score : ℚ
  profile_alignment : ℚ
  should_emphasize : Bool
  decision : Decision
deriving DecidableEq

/-- `AlignmentEngine.analyze_bullet`: computes JD similarity, evidence
(at least one store entry above `similarity_threshold` within a pool of
5), keyword overlap and the hint signals, then decides.  `enc` is the
external sentence encoder composed with L2 normalization. -/
def analyze_bullet (enc : String → Vec) (eng : AlignmentEngine)
    (bullet_text : String) (match_analysis : Option MatchAnalysis) : BulletAnalysis :=
  let jd_sim := calculate_jd_similarity eng enc bullet_text
  let relevant := get_relevant_entries eng.store (enc bullet_text) eng.similarity_threshold 5
  let has_evidence := !relevant.isEmpty
  let keyword_score := calculate_keyword_overlap eng bullet_text
  let sig := hint_signals match_analysis bullet_text
  let decision := make_decision eng jd_sim has_evidence keyword_score sig.1 sig.2.1 sig.2.2
  ⟨bullet_text, jd_sim, has_evidence, relevant.take 3, keyword_score, sig.1, sig.2.1, decision⟩

/-- The decision weights of `calculate_role_match_score`
(`decision_weights.get(decision, 0.5)`). -/
def decision_weight : Decision → ℚ
  | .KEEP => 1
  | .REWRITE => 0.6
  | .DE_EMPHASIZE => 0.2
  | .ADD => 0.5

/-- The per-bullet unweighted score of `calculate_role_match_score`
(deliberately a different weighting than `combined_score`). -/
def bullet_score (a : BulletAnalysis) : ℚ :=
  a.jd_similarity * 0.5 + a.keyword_score * 0.3 +
    (if a.has_evidence then (0.8 : ℚ) else 0.2) * 0.2

/-- Round to the nearest integer, ties to the even integer (the rounding
of Python's `round`). -/
def round_half_even (x : ℚ) : ℤ :=
  let f := Int.floor x
  let r := x - f
  if r < 1 / 2 then f
  else if 1 / 2 < r then f + 1
  else if f % 2 = 0 then f else f + 1

/-- Python's `round(x, 2)`. -/
def py_round2 (x : ℚ) : ℚ := ((round_half_even (x * 100) : ℚ)) / 100

/-- The accumulation loop of `calculate_role_match_score`: threads
`(total_score, total_weight)` over the analyses. -/
def agg_loop : List BulletAnalysis → ℚ × ℚ → ℚ × ℚ
  | [], acc => acc
  | a :: rest, (ts, tw) =>
      let w := decision_weight a.decision
      agg_loop rest (ts + bullet_score a * w, tw + w)

/-- `AlignmentEngine.calculate_role_match_score`: 0 for no analyses (and
for a zero total weight), else the decision-weighted average of the
per-bullet scores, scaled by 100 and rounded to two decimal places. -/
def calculate_role_match_score (analyses : List BulletAnalysis) : ℚ :=
  if analyses = [] then 0
  else
    let p := agg_loop analyses (0, 0)
    if p.2 = 0 then 0
    else py_round2 (p.1 / p.2 * 100)

/-! ## Claim-side definitions

Definitions below follow the specification's wording, to be compared
with the source-translated definitions above. -/

/-- The combined score as the specification words it:
`0.4*description_similarity + 0.25*lexical_overlap + 0.2*(0.8 if
has_evidence else 0.2) + 0.15*profile_alignment`. -/
def combined_score_claim (description_similarity lexical_overlap profile_alignment : ℚ)
    (has_evidence : Bool) : ℚ :=
  0.4 * description_similarity + 0.25 * lexical_overlap +
    0.2 * (if has_evidence then (0.8 : ℚ) else 0.2) + 0.15 * profile_alignment

/-- The decision policy as the specification words it, rules (a)-(d) in
strict priority order, first matching rule wins. -/
def decision_policy_claim (eng : AlignmentEngine)
    (description_similarity lexical_overlap profile_alignment : ℚ)
    (has_evidence should_emphasize : Bool) : Decision :=
  let combined := combined_score_claim description_similarity lexical_overlap
    profile_alignment has_evidence
  if should_emphasize && has_evidence then
    if description_similarity ≥ 0.9 * eng.keep_threshold then .KEEP else .REWRITE
  else if combined ≥ eng.keep_threshold ∧ description_similarity ≥ eng.keep_threshold then .KEEP
  else if combined ≥ eng.rewrite_threshold then .REWRITE
  else .DE_EMPHASIZE

/-- The decision ordering `DE_EMPHASIZE < REWRITE < KEEP` used by the
monotonicity property.  `ADD` is never returned by `make_decision`, so
its rank is immaterial. -/
def decision_rank : Decision → Nat
  | .DE_EMPHASIZE => 0
  | .REWRITE => 1
  | .ADD => 0
  | .KEEP => 2

/-- Does any matched-skill name occur case-insensitively in the
candidate text (in the hints' given order)? -/
def skill_hit (skills : List String) (bullet_text : String) : Bool :=
  skills.any (fun s => py_contains (str_lower s) (str_lower bullet_text))

/-- Does the recommendation's topic, lower-cased and non-empty, occur in
the (already lower-cased) candidate text? -/
def rec_match (r : Recommendation) (text_l : String) : Bool :=
  (str_lower r.skill_or_topic != "") && py_contains (str_lower r.skill_or_topic) text_l

/-- Is there a recommendation matching the candidate text whose action
is `EMPHASIZE`? -/
def emph_rec_hit (m : MatchAnalysis) (bullet_text : String) : Bool :=
  m.recommendations.any
    (fun r => rec_match r (str_lower bullet_text) && (r.action == "EMPHASIZE"))

/-- Is there a recommendation matching the candidate text whose action
is `ADD`? -/
def add_rec_hit (m : MatchAnalysis) (bullet_text : String) : Bool :=
  m.recommendations.any
    (fun r => rec_match r (str_lower bullet_text) && (r.action == "ADD"))

/-! ## Concrete instances used in closed statements -/

/-- A three-entry one-dimensional store whose middle entry scores above
typical thresholds yet falls outside a two-element top pool. -/
def pool_store : EmbeddingStore :=
  ⟨"m", 1, some ⟨1, [[1], [(1:ℚ)/2], [(3:ℚ)/4]]⟩, [⟨"e0", 0⟩, ⟨"e1", 1⟩, ⟨"e2", 2⟩]⟩

/-- An encoder that maps every text to the empty vector (any encoder
works for inputs that never reach it). -/
def null_enc : String → Vec := fun _ => []

/-- A store with no index built. -/
def blank_store : EmbeddingStore := ⟨"all-MiniLM-L6-v2", 384, none, []⟩

/-- A populated one-entry store. -/
def demo_store : EmbeddingStore := ⟨"mini", 1, some ⟨1, [[1]]⟩, [⟨"t", 0⟩]⟩

/-- A store whose index exists but holds no vectors. -/
def demo_empty_store : EmbeddingStore := ⟨"mini", 1, some ⟨1, []⟩, []⟩

/-- An artifact whose config dimension (3) matches neither its own FAISS
index dimension (2) nor `mismatch_store`'s configured dimension, and
whose config entry count (5) matches neither its vector count (1) nor
its metadata count (1). -/
def mismatch_artifact : Artifact := ⟨⟨2, [[1, 0]]⟩, [⟨"t", 0⟩], "mini", 3, 5⟩

/-- A dimension-2 store with no index. -/
def mismatch_store : EmbeddingStore := ⟨"mini", 2, none, []⟩

/-- A dimension-3 store with no index, target of a mismatched batch. -/
def bad_batch_store : EmbeddingStore := ⟨"mini", 3, none, []⟩

/-! ## Helper lemmas -/

theorem combined_score_eq_claim (s kw p : ℚ) (ev : Bool) :
    combined_score s kw p ev = combined_score_claim s kw p ev := by
  cases ev <;> simp [combined_score, combined_score_claim] <;> ring

theorem combined_score_mono (kw p : ℚ) (ev : Bool) {s1 s2 : ℚ} (h : s1 ≤ s2) :
    combined_score s1 kw p ev ≤ combined_score s2 kw p ev := by
  unfold combined_score; cases ev <;> simp <;> linarith

theorem filterMap_threshold (l : List (ℚ × Meta)) (t : ℚ) :
    l.filterMap (fun p => if t ≤ p.1 then some p.2 else none) =
      (l.filter (fun p => decide (t ≤ p.1))).map Prod.snd := by
  induction l with
  | nil => rfl
  | cons a l ih =>
      by_cases h : t ≤ a.1 <;> simp [List.filterMap_cons, List.filter_cons, h, ih]

theorem scan_skills_eq (skills : List String) (tl : String) :
    scan_skills skills tl =
      (if skills.any (fun s => py_contains (str_lower s) tl) then ((0.8 : ℚ), true)
       else (0, false)) := by
  induction skills with
  | nil => rfl
  | cons s rest ih =>
      by_cases h : py_contains (str_lower s) tl = true <;>
        simp [scan_skills, List.any_cons, h, ih]

theorem scan_recommendations_eq (recs : List Recommendation) (tl : String)
    (p : ℚ) (e a : Bool) :
    scan_recommendations recs tl (p, e, a) =
      ((if recs.any (fun r => rec_match r tl && (r.action == "EMPHASIZE")) then max p 0.7
        else p),
       e || recs.any (fun r => rec_match r tl && (r.action == "EMPHASIZE")),
       a || recs.any (fun r => rec_match r tl && (r.action == "ADD"))) := by
  induction recs generalizing p e a with
  | nil => simp [scan_recommendations]
  | cons r rest ih =>
      by_cases hm : ((str_lower r.skill_or_topic != "") &&
          py_contains (str_lower r.skill_or_topic) tl) = true
      · by_cases hE : r.action = "EMPHASIZE"
        · simp [scan_recommendations, hm, hE, ih, List.any_cons, rec_match, beq_iff_eq,
            max_assoc, max_self]
        · have hE' : (r.action == "EMPHASIZE") = false := beq_eq_false_iff_ne.mpr hE
          by_cases hA : r.action = "ADD"
          · simp [scan_recommendations, hm, hE, hA, ih, List.any_cons, rec_match, hE']
          · have hA' : (r.action == "ADD") = false := beq_eq_false_iff_ne.mpr hA
            simp [scan_recommendations, hm, hE, hA, ih, List.any_cons, rec_match, hE', hA']
      · simp [scan_recommendations, hm, ih, List.any_cons, rec_match]

theorem agg_loop_eq (l : List BulletAnalysis) (ts tw : ℚ) :
    agg_loop l (ts, tw) =
      (ts + (l.map (fun a => bullet_score a * decision_weight a.decision)).sum,
       tw + (l.map (fun a => decision_weight a.decision)).sum) := by
  induction l generalizing ts tw with
  | nil => simp [agg_loop]
  | cons a rest ih => simp [agg_loop, ih]; constructor <;> ring

theorem decision_weight_pos (d : Decision) : 0 < decision_weight d := by
  cases d <;> norm_num [decision_weight]

theorem weight_sum_nonneg (l : List BulletAnalysis) :
    0 ≤ (l.map (fun a => decision_weight a.decision)).sum := by
  induction l with
  | nil => simp
  | cons a rest ih =>
      simp only [List.map_cons, List.sum_cons]
      exact add_nonneg (le_of_lt (decision_weight_pos _)) ih

/-! ## Claim theorems -/

/-- C1: for every candidate, the classifier computes the combined score
`0.4*description_similarity + 0.25*lexical_overlap + 0.2*(0.8 if
has_evidence else 0.2) + 0.15*profile_alignment` and returns the
decision chosen by the first matching rule of the claimed priority
order: (a) emphasize-with-evidence keeps when similarity is at least
`0.9*keep_threshold` and rewrites otherwise; (b) keeps when both the
combined score and the similarity reach `keep_threshold`; (c) rewrites
when the combined score reaches `rewrite_threshold`; (d) de-emphasizes
otherwise. -/
theorem decision_policy_matches_claim (eng : AlignmentEngine) (s kw p : ℚ)
    (ev emph add : Bool) :
    make_decision eng s ev kw p emph add = decision_policy_claim eng s kw p ev emph := by
  unfold make_decision decision_policy_claim
  rw [combined_score_eq_claim]
  rw [show eng.keep_threshold * 0.9 = 0.9 * eng.keep_threshold from mul_comm _ _]

/-- C3: the decision returned for any combination of signals is an
element of the closed set {KEEP, REWRITE, DE_EMPHASIZE} — in particular
never ADD — and the same holds for the full per-candidate analysis even
when hints carrying ADD recommendations are supplied. -/
theorem decision_in_closed_set (enc : String → Vec) (eng : AlignmentEngine)
    (bullet_text : String) (ma : Option MatchAnalysis) :
    ((analyze_bullet enc eng bullet_text ma).decision = .KEEP ∨
      (analyze_bullet enc eng bullet_text ma).decision = .REWRITE ∨
      (analyze_bullet enc eng bullet_text ma).decision = .DE_EMPHASIZE) ∧
    ∀ (s kw p : ℚ) (ev emph add : Bool),
      make_decision eng s ev kw p emph add = .KEEP ∨
        make_decision eng s ev kw p emph add = .REWRITE ∨
        make_decision eng s ev kw p emph add = .DE_EMPHASIZE := by
  have hmem : ∀ (s kw p : ℚ) (ev emph add : Bool),
      make_decision eng s ev kw p emph add = .KEEP ∨
        make_decision eng s ev kw p emph add = .REWRITE ∨
        make_decision eng s ev kw p emph add = .DE_EMPHASIZE := by
    intro s kw p ev emph add
    simp only [make_decision]
    split_ifs <;>
      first
        | exact Or.inl rfl
        | exact Or.inr (Or.inl rfl)
        | exact Or.inr (Or.inr rfl)
  exact ⟨by simp only [analyze_bullet]; exact hmem _ _ _ _ _ _, hmem⟩

/-- C10: with lexical overlap, evidence, profile alignment and both
hint flags held fixed, the decision is monotone non-decreasing in the
description-similarity signal under DE_EMPHASIZE < REWRITE < KEEP. -/
theorem decision_monotone_in_similarity (eng : AlignmentEngine) (kw p : ℚ)
    (ev emph add : Bool) (s1 s2 : ℚ) (h : s1 ≤ s2) :
    decision_rank (make_decision eng s1 ev kw p emph add) ≤
      decision_rank (make_decision eng s2 ev kw p emph add) := by
  have hc : combined_score s1 kw p ev ≤ combined_score s2 kw p ev :=
    combined_score_mono kw p ev h
  simp only [make_decision]
  by_cases hb : (emph && ev) = true
  · rw [if_pos hb, if_pos hb]
    by_cases h2 : s2 ≥ eng.keep_threshold * 0.9
    · rw [if_pos h2]
      by_cases h1 : s1 ≥ eng.keep_threshold * 0.9
      · rw [if_pos h1]
      · rw [if_neg h1]; decide
    · have h1 : ¬s1 ≥ eng.keep_threshold * 0.9 := fun hx => h2 (le_trans hx h)
      rw [if_neg h1, if_neg h2]
  · rw [if_neg hb, if_neg hb]
    by_cases hK1 : combined_score s1 kw p ev ≥ eng.keep_threshold ∧ s1 ≥ eng.keep_threshold
    · have hK2 : combined_score s2 kw p ev ≥ eng.keep_threshold ∧ s2 ≥ eng.keep_threshold :=
        ⟨le_trans hK1.1 hc, le_trans hK1.2 h⟩
      rw [if_pos hK1, if_pos hK2]
    · rw [if_neg hK1]
      by_cases hK2 : combined_score s2 kw p ev ≥ eng.keep_threshold ∧ s2 ≥ eng.keep_threshold
      · rw [if_pos hK2]
        split_ifs <;> decide
      · rw [if_neg hK2]
        by_cases hR1 : combined_score s1 kw p ev ≥ eng.rewrite_threshold
        · have hR2 : combined_score s2 kw p ev ≥ eng.rewrite_threshold := le_trans hR1 hc
          rw [if_pos hR1, if_pos hR2]
        · rw [if_neg hR1]
          split_ifs <;> decide

/-- C10 witness: the monotonicity instance at similarity 0 versus 1
with evidence present and default thresholds. -/
theorem decision_monotone_in_similarity_witness :
    decision_rank (make_decision (default_engine ⟨"m", 1, none, []⟩) 0 true 0 0 false false) ≤
      decision_rank (make_decision (default_engine ⟨"m", 1, none, []⟩) 1 true 0 0 false false) :=
  decision_monotone_in_similarity (default_engine ⟨"m", 1, none, []⟩) 0 0 true false false 0 1
    (by norm_num)

/-- C2: `get_relevant_entries` returns exactly the entries of the
`top_k`-bounded search pool whose score reaches the threshold, in pool
order; every returned entry therefore has a score at least the
threshold and comes from the pool; and on a concrete three-entry store
the middle entry, whose score 1/2 exceeds the threshold 2/5, is
excluded from the two-element pool. -/
theorem threshold_filter_containment (st : EmbeddingStore) (qv : Vec) (t : ℚ) (k : Nat) :
    get_relevant_entries st qv t k =
      ((search st qv k).filter (fun p => decide (t ≤ p.1))).map Prod.snd ∧
    (∀ m ∈ get_relevant_entries st qv t k, ∃ s, (s, m) ∈ search st qv k ∧ t ≤ s) ∧
    get_relevant_entries pool_store [1] (2/5) 2 = [⟨"e0", 0⟩, ⟨"e2", 2⟩] ∧
    dot [1] [(1:ℚ)/2] = 1/2 ∧ (2/5 : ℚ) ≤ 1/2 ∧
    (⟨"e1", 1⟩ : Meta) ∉ get_relevant_entries pool_store [1] (2/5) 2 := by
  have hconc : get_relevant_entries pool_store [1] (2/5) 2 = [⟨"e0", 0⟩, ⟨"e2", 2⟩] := by
    norm_num [get_relevant_entries, search, pool_store, dot, List.insertionSort,
      List.orderedInsert, rank_rel, List.filterMap]
  refine ⟨filterMap_threshold _ t, ?_, hconc, by norm_num [dot], by norm_num, ?_⟩
  · intro m hm
    rw [get_relevant_entries, filterMap_threshold] at hm
    obtain ⟨p, hp, hpm⟩ := List.mem_map.mp hm
    have hf := List.mem_filter.mp hp
    refine ⟨p.1, ?_, by simpa using hf.2⟩
    rw [← hpm]
    simpa using hf.1
  · rw [hconc]; decide

/-- C4: the classifier is a total function; with no target set the
description-similarity and lexical-overlap signals are 0, with no hints
the profile-alignment signal is 0 and both flags are false, and a
candidate with no target, no hints and no evidence deterministically
yields DE_EMPHASIZE under the default thresholds, its combined score
being the no-evidence floor 0.04. -/
theorem degraded_defaults_yield_de_emphasize (enc : String → Vec)
    (store : EmbeddingStore) (bullet_text : String)
    (h : get_relevant_entries store (enc bullet_text) 0.6 5 = []) :
    analyze_bullet enc (default_engine store) bullet_text none =
      ⟨bullet_text, 0, false, [], 0, 0, false, .DE_EMPHASIZE⟩ ∧
    combined_score 0 0 0 false = 0.04 ∧
    hint_signals none bullet_text = (0, false, false) := by
  refine ⟨?_, by norm_num [combined_score], rfl⟩
  simp only [analyze_bullet, default_engine, calculate_jd_similarity,
    calculate_keyword_overlap, hint_signals, h]
  norm_num [make_decision, combined_score]

/-- C4 witness: the degraded-defaults case at a concrete encoder and a
store with no index. -/
theorem degraded_defaults_yield_de_emphasize_witness :
    analyze_bullet null_enc (default_engine blank_store) "x" none =
      ⟨"x", 0, false, [], 0, 0, false, .DE_EMPHASIZE⟩ ∧
    combined_score 0 0 0 false = 0.04 ∧
    hint_signals none "x" = (0, false, false) :=
  degraded_defaults_yield_de_emphasize null_enc blank_store "x" rfl

/-- C5 counterexample: the recommendation scan is not guarded on the
skill scan.  With skill "python" matching the text "python and java",
the ADD recommendation for "java" still sets should-add, contradicting
the claim that recommendations are processed only when no skill
matched; and an empty topic, although a substring of every text, is
skipped by the scan, so an empty-topic EMPHASIZE recommendation does
not set should-emphasize. -/
theorem hint_scan_unconditional_counterexample :
    skill_hit ["python"] "python and java" = true ∧
    (hint_signals (some ⟨["python"], [⟨"java", "ADD"⟩]⟩) "python and java").2.2 = true ∧
    py_contains (str_lower "") (str_lower "abc") = true ∧
    (hint_signals (some ⟨[], [⟨"", "EMPHASIZE"⟩]⟩) "abc").2.1 = false :=
  ⟨by decide, by decide, by decide, by decide⟩

/-- C5 amended: when hints are supplied, a matched skill (first match
in given order) yields profile-alignment 0.8 and should-emphasize;
recommendations are scanned regardless of whether a skill matched, and
each recommendation with a non-empty topic occurring case-insensitively
in the candidate text raises profile-alignment to at least 0.7 and sets
should-emphasize when its action is EMPHASIZE, or sets should-add when
its action is ADD; and should-add never changes the returned decision. -/
theorem hint_scan_amended (m : MatchAnalysis) (bullet_text : String) :
    hint_signals (some m) bullet_text =
      (max (if skill_hit m.skill_matches bullet_text then (0.8 : ℚ) else 0)
           (if emph_rec_hit m bullet_text then (0.7 : ℚ) else 0),
       skill_hit m.skill_matches bullet_text || emph_rec_hit m bullet_text,
       add_rec_hit m bullet_text) ∧
    ∀ (eng : AlignmentEngine) (s kw p : ℚ) (ev emph a1 a2 : Bool),
      make_decision eng s ev kw p emph a1 = make_decision eng s ev kw p emph a2 := by
  constructor
  · simp only [hint_signals, scan_skills_eq, scan_recommendations_eq]
    by_cases hs : (m.skill_matches.any
        fun s => py_contains (str_lower s) (str_lower bullet_text)) = true <;>
      by_cases he : (m.recommendations.any
          fun r => rec_match r (str_lower bullet_text) && (r.action == "EMPHASIZE")) = true <;>
        simp [skill_hit, emph_rec_hit, add_rec_hit, hs, he] <;> norm_num
  · intro eng s kw p ev emph a1 a2
    rfl

/-- C6: the role-match score weights each analysis by its decision
(KEEP 1.0, REWRITE 0.6, DE_EMPHASIZE 0.2, any other 0.5), scores each
analysis as `0.5*description_similarity + 0.3*lexical_overlap +
0.2*(0.8 if has_evidence else 0.2)`, and returns the decision-weighted
average scaled by 100 and rounded to two decimal places, with exactly 0
for an empty input. -/
theorem role_match_score_characterization (analyses : List BulletAnalysis) :
    (calculate_role_match_score analyses =
      if analyses = [] then 0
      else py_round2
        ((analyses.map (fun a => bullet_score a * decision_weight a.decision)).sum /
          (analyses.map (fun a => decision_weight a.decision)).sum * 100)) ∧
    decision_weight .KEEP = 1 ∧ decision_weight .REWRITE = 0.6 ∧
    decision_weight .DE_EMPHASIZE = 0.2 ∧ decision_weight .ADD = 0.5 ∧
    ∀ a : BulletAnalysis, bullet_score a =
      0.5 * a.jd_similarity + 0.3 * a.keyword_score +
        0.2 * (if a.has_evidence then (0.8 : ℚ) else 0.2) := by
  refine ⟨?_, rfl, rfl, rfl, rfl, ?_⟩
  · match analyses with
    | [] => rfl
    | a :: rest =>
        have hne : (a :: rest : List BulletAnalysis) ≠ [] := List.cons_ne_nil a rest
        have hpos : 0 < ((a :: rest).map (fun x => decision_weight x.decision)).sum := by
          simp only [List.map_cons, List.sum_cons]
          exact add_pos_of_pos_of_nonneg (decision_weight_pos _) (weight_sum_nonneg rest)
        simp only [calculate_role_match_score, hne, if_false, agg_loop_eq, zero_add]
        rw [if_neg (ne_of_gt hpos)]
  · intro a
    cases ha : a.has_evidence <;> simp [bullet_score, ha] <;> ring

/-- C7: for every store holding an index — whether it holds vectors or
not — saving succeeds and loading the saved artifact reproduces the
dimension, the index (hence vector list and entry count) and the
metadata exactly. -/
theorem save_load_round_trip (st : EmbeddingStore) (idx : FaissIndex)
    (h : st.index = some idx) (st2 : EmbeddingStore) :
    ∃ (a : Artifact) (st' : EmbeddingStore),
      save st = .ok a ∧ load (some a) st2 = .ok st' ∧
      st'.dimension = st.dimension ∧ st'.index = st.index ∧
      st'.metadata = st.metadata ∧ entries st' = entries st ∧
      (entries st').length = (entries st).length := by
  refine ⟨⟨idx, st.metadata, st.model_name, st.dimension, idx.vectors.length⟩,
    { st2 with index := some idx, metadata := st.metadata,
               model_name := st.model_name, dimension := st.dimension },
    ?_, rfl, rfl, ?_, rfl, ?_, ?_⟩
  · simp only [save, h]
  · exact h.symm
  · simp [entries, h]
  · simp [entries, h]

/-- C7 witness: the round trip at a populated store and at a store whose
index holds no vectors. -/
theorem save_load_round_trip_witness :
    (∃ (a : Artifact) (st' : EmbeddingStore),
      save demo_store = .ok a ∧ load (some a) demo_store = .ok st' ∧
      st'.dimension = demo_store.dimension ∧ st'.index = demo_store.index ∧
      st'.metadata = demo_store.metadata ∧ entries st' = entries demo_store ∧
      (entries st').length = (entries demo_store).length) ∧
    (∃ (a : Artifact) (st' : EmbeddingStore),
      save demo_empty_store = .ok a ∧ load (some a) demo_empty_store = .ok st' ∧
      st'.dimension = demo_empty_store.dimension ∧ st'.index = demo_empty_store.index ∧
      st'.metadata = demo_empty_store.metadata ∧ entries st' = entries demo_empty_store ∧
      (entries st').length = (entries demo_empty_store).length) :=
  ⟨save_load_round_trip demo_store ⟨1, [[1]]⟩ rfl demo_store,
   save_load_round_trip demo_empty_store ⟨1, []⟩ rfl demo_empty_store⟩

/-- C8 counterexample: loading an artifact whose stored dimension (3)
differs from the configured store dimension (2) and whose stored entry
count (5) differs from its vector count (1) and metadata count (1)
succeeds rather than failing with FormatMismatch. -/
theorem load_no_validation_counterexample :
    load (some mismatch_artifact) mismatch_store =
      .ok ⟨"mini", 3, some ⟨2, [[1, 0]]⟩, [⟨"t", 0⟩]⟩ ∧
    mismatch_store.dimension = 2 ∧ mismatch_artifact.config_dimension = 3 ∧
    mismatch_artifact.config_size = 5 ∧ mismatch_artifact.metadata.length = 1 ∧
    mismatch_artifact.faiss_index.vectors.length = 1 :=
  ⟨rfl, rfl, rfl, rfl, rfl, rfl⟩

/-- C8 amended: load fails with StoreNotFound when the source store
does not exist; when it exists, load always succeeds, performing no
dimension or entry-count validation — it unconditionally adopts the
stored index, metadata, model name and dimension. -/
theorem load_error_behavior :
    (∀ st : EmbeddingStore, load none st = .error .StoreNotFound) ∧
    (∀ (a : Artifact) (st : EmbeddingStore),
      load (some a) st =
        .ok { st with index := some a.faiss_index, metadata := a.metadata,
                      model_name := a.model_name, dimension := a.config_dimension }) :=
  ⟨fun _ => rfl, fun _ _ => rfl⟩

/-- C9: adding a batch in which some vector's length differs from the
index's dimension fails with DimensionMismatch, and the failing call
leaves the stored entries and the metadata unchanged (for any
shape-preserving normalizer). -/
theorem add_dimension_mismatch_preserves_state (norm : Vec → Vec)
    (st : EmbeddingStore) (embeddings : List Vec) (texts : List String)
    (metadata : Option (List Meta))
    (hnorm : ∀ v, (norm v).length = v.length)
    (hbad : ∃ v ∈ embeddings, v.length ≠ index_dim st) :
    (add_to_index norm st embeddings texts metadata).1 = some .DimensionMismatch ∧
    entries (add_to_index norm st embeddings texts metadata).2 = entries st ∧
    (add_to_index norm st embeddings texts metadata).2.metadata = st.metadata := by
  obtain ⟨v, hv, hlen⟩ := hbad
  have hall : ∀ d : Nat, index_dim st = d →
      (embeddings.map norm).all (fun w => w.length == d) = false := by
    intro d hd
    refine List.all_eq_false.mpr ⟨norm v, List.mem_map_of_mem norm hv, ?_⟩
    simp [hnorm v, hd ▸ hlen]
  cases hst : st.index with
  | none =>
      have hd : index_dim st = st.dimension := by simp [index_dim, hst]
      have hfalse := hall st.dimension hd
      simp only [add_to_index, build_index, hst, hfalse, Bool.false_eq_true, if_false]
      simp [entries, hst]
  | some idx =>
      have hd : index_dim st = idx.d := by simp [index_dim, hst]
      have hfalse := hall idx.d hd
      simp only [add_to_index, hst, hfalse, Bool.false_eq_true, if_false]
      simp [entries, hst]

/-- C9 witness: adding a length-2 vector to a dimension-3 store fails
with DimensionMismatch and changes neither entries nor metadata. -/
theorem add_dimension_mismatch_preserves_state_witness :
    (add_to_index (fun v => v) bad_batch_store [[1, 2]] [] none).1 =
      some .DimensionMismatch ∧
    entries (add_to_index (fun v => v) bad_batch_store [[1, 2]] [] none).2 =
      entries bad_batch_store ∧
    (add_to_index (fun v => v) bad_batch_store [[1, 2]] [] none).2.metadata =
      bad_batch_store.metadata :=
  add_dimension_mismatch_preserves_state (fun v => v) bad_batch_store [[1, 2]] [] none
    (fun _ => rfl) ⟨[1, 2], List.mem_cons_self _ _, by decide⟩

end ATS
